import Mathlib

/-
Verification of the URL-import pipeline of cv_manager
(src/services/url_import_service.py) against its specification.

The embedding is shallow: the mutable `Dict[str, str]` accumulator becomes an
explicit record that extractor functions thread, HTML documents are modelled at
the parsed (BeautifulSoup) level by a `Doc` structure holding the derived
artifacts every extractor reads, filesystem and network effects become explicit
oracle parameters, and the regex-based text processing of the Jobup heuristic
is implemented as executable character-list scanners that mirror the Python
regular expressions. All recursion is structural (or fuel-based with a fuel
that dominates the input length), so every definition evaluates inside the
kernel.
-/

set_option autoImplicit false

/-! ### Character and string primitives

Python string operations (`str.strip`, `str.lower`, `in`, `str.find`,
`str.split`, `str.replace`, `re` patterns) are modelled by structurally
recursive functions over `List Char`. -/

/-- Whitespace test used throughout; models the whitespace class of Python
`str.strip` and of the regex class `\s` for the ASCII range. -/
def isWsC (c : Char) : Bool := c.isWhitespace

/-- Lowercasing of one character: ASCII letters plus the Latin-1 uppercase
range (covers the accented French letters appearing in the source strings);
models Python `str.lower` on the alphabets the source uses. -/
def lowerC (c : Char) : Char :=
  if (('A') ≤ c ∧ c ≤ ('Z')) then Char.ofNat (c.toNat + 32)
  else if (0xC0 ≤ c.toNat ∧ c.toNat ≤ 0xDE ∧ c.toNat ≠ 0xD7) then Char.ofNat (c.toNat + 32)
  else c

/-- Word-character test for the regex boundary `\b`: alphanumerics, underscore
and non-ASCII Latin letters (approximates the Unicode `\w` class on the
French text the source handles). -/
def wordChar (c : Char) : Bool := c.isAlphanum ∨ c = ('_') ∨ 0xC0 ≤ c.toNat

def lowerL (s : List Char) : List Char := s.map lowerC

def trimL (s : List Char) : List Char :=
  ((s.dropWhile isWsC).reverse.dropWhile isWsC).reverse

/-- Python `str.strip()`. -/
def pyStrip (s : String) : String := String.mk (trimL s.data)

def lowerS (s : String) : String := String.mk (lowerL s.data)

/-- Case-sensitive "starts with". -/
def leadEq : List Char → List Char → Bool
  | [], _ => true
  | _ :: _, [] => false
  | p :: ps, c :: cs => if p = c then leadEq ps cs else false

/-- Case-insensitive "starts with", returning the rest after the match. -/
def matchCI : List Char → List Char → Option (List Char)
  | [], s => some s
  | _ :: _, [] => none
  | p :: ps, c :: cs => if lowerC p = lowerC c then matchCI ps cs else none

/-- Python substring containment `pat in s` (empty pattern is contained
everywhere). -/
def subOccurs (pat : List Char) : List Char → Bool
  | [] => leadEq pat []
  | c :: t => leadEq pat (c :: t) || subOccurs pat t

/-- Python `pat in s` on strings. -/
def strContains (s pat : String) : Bool := subOccurs pat.data s.data

/-- Suffix of `s` starting at the first occurrence of `pat`
(Python `s[s.find(pat):]` when `find` succeeds). -/
def fromSub (pat : List Char) : List Char → Option (List Char)
  | [] => if leadEq pat [] then some [] else none
  | c :: t => if leadEq pat (c :: t) then some (c :: t) else fromSub pat t

/-- Chars of `s` before the first occurrence of `pat`; the whole list when
`pat` does not occur (Python `s.split(pat, 1)[0]`). -/
def beforeSub (pat : List Char) : List Char → List Char
  | [] => []
  | c :: t => if leadEq pat (c :: t) then [] else c :: beforeSub pat t

/-- Suffix of `s` after the first occurrence of `pat`. -/
def afterSub (pat : List Char) : List Char → Option (List Char)
  | [] => if leadEq pat [] then some [] else none
  | c :: t => if leadEq pat (c :: t) then some ((c :: t).drop pat.length) else afterSub pat t

/-- Fuel-based Python `str.replace(pat, rep)` (all occurrences; `pat` is never
empty at the call sites). -/
def replaceF (pat rep : List Char) : Nat → List Char → List Char
  | 0, s => s
  | _ + 1, [] => []
  | f + 1, c :: t =>
    if pat ≠ [] ∧ leadEq pat (c :: t) then rep ++ replaceF pat rep f ((c :: t).drop pat.length)
    else c :: replaceF pat rep f t

def replaceS (s pat rep : String) : String :=
  String.mk (replaceF pat.data rep.data (s.data.length + 1) s.data)

/-- Split on newline characters (Python `s.split("\n")`). -/
def splitNl : List Char → List (List Char)
  | [] => [[]]
  | c :: t =>
    match splitNl t with
    | [] => [[c]]
    | x :: xs => if c = ('\n') then [] :: x :: xs else (c :: x) :: xs

def dropWsL (s : List Char) : List Char := s.dropWhile isWsC

def countWs (s : List Char) : Nat := (s.takeWhile isWsC).length

/-- Remove carriage returns: models `re.sub(r"\r", "", s)`. -/
def dropCRl (s : List Char) : List Char := s.filter (fun c => c ≠ ('\r'))

/-- Collapse runs of two or more newlines to a single newline:
models `re.sub(r"\n{2,}", "\n", s)` (fuel-based; fuel `length + 1`). -/
def collapseNlF : Nat → List Char → List Char
  | 0, s => s
  | _ + 1, [] => []
  | f + 1, c :: t =>
    if c = ('\n') then
      let run := (c :: t).takeWhile (fun d => d = ('\n'))
      if 2 ≤ run.length then ('\n') :: collapseNlF f ((c :: t).drop run.length)
      else c :: collapseNlF f t
    else c :: collapseNlF f t

def collapseNl (s : List Char) : List Char := collapseNlF (s.length + 1) s

/-- Collapse runs of two or more whitespace characters to a single space:
models `re.sub(r"\s{2,}", " ", s)`. -/
def collapseWs2F : Nat → List Char → List Char
  | 0, s => s
  | _ + 1, [] => []
  | f + 1, c :: t =>
    if isWsC c then
      let run := (c :: t).takeWhile isWsC
      if 2 ≤ run.length then (' ') :: collapseWs2F f ((c :: t).drop run.length)
      else c :: collapseWs2F f t
    else c :: collapseWs2F f t

def collapseWs2 (s : List Char) : List Char := collapseWs2F (s.length + 1) s

/-- Collapse every whitespace run to a single space:
models `re.sub(r"\s+", " ", s)`. -/
def collapseWs1F : Nat → List Char → List Char
  | 0, s => s
  | _ + 1, [] => []
  | f + 1, c :: t =>
    if isWsC c then
      let run := (c :: t).takeWhile isWsC
      (' ') :: collapseWs1F f ((c :: t).drop run.length)
    else c :: collapseWs1F f t

def collapseWs1 (s : List Char) : List Char := collapseWs1F (s.length + 1) s

/-- Python `s.split()` (split on whitespace runs, no empty parts). -/
def splitPyWsF : Nat → List Char → List (List Char)
  | 0, _ => []
  | f + 1, s =>
    let s1 := s.dropWhile isWsC
    match s1 with
    | [] => []
    | _ :: _ =>
      let w := s1.takeWhile (fun c => ¬ isWsC c)
      w :: splitPyWsF f (s1.drop w.length)

def splitPyWs (s : List Char) : List (List Char) := splitPyWsF (s.length + 1) s

def joinSep (sep : List Char) : List (List Char) → List Char
  | [] => []
  | [x] => x
  | x :: y :: t => x ++ sep ++ joinSep sep (y :: t)

def joinSepStr (sep : String) : List String → String
  | [] => ""
  | [x] => x
  | x :: y :: t => x ++ sep ++ joinSepStr sep (y :: t)

/-- First hit of an option-valued function over a list (used to model regex
alternation, which tries alternatives in written order). -/
def firstSome {α β : Type} : List α → (α → Option β) → Option β
  | [], _ => none
  | x :: t, f => match f x with | some y => some y | none => firstSome t f

/-- If some word of `words` matches case-insensitively at the head of `s` and
is followed by a non-word character (regex `\b` after the word), return the
rest after the match. -/
def wordAt (words : List String) (s : List Char) : Option (List Char) :=
  firstSome words fun w =>
    match matchCI w.data s with
    | some r => if (match r with | [] => true | c :: _ => ¬ wordChar c) then some r else none
    | none => none

/-- Replace every whole-word, case-insensitive occurrence of one of `words`
by a single space: models `re.sub(r"\b(w1|w2|...)\b", " ", s, flags=re.IGNORECASE)`.
The boolean argument tracks whether the previous character was a word
character (the regex `\b` before the word). -/
def subWordsF (words : List String) : Nat → Bool → List Char → List Char
  | 0, _, s => s
  | _ + 1, _, [] => []
  | f + 1, prevW, c :: t =>
    if prevW = false then
      match wordAt words (c :: t) with
      | some r => (' ') :: subWordsF words f true r
      | none => c :: subWordsF words f (wordChar c) t
    else c :: subWordsF words f (wordChar c) t

def subWords (words : List String) (s : List Char) : List Char :=
  subWordsF words (s.length + 1) false s

/-- Whether some whole word of `words` occurs case-insensitively in `s`:
models `re.search(r"\b(w1|...)\b", s, flags=re.IGNORECASE)`. -/
def searchWordF (words : List String) : Nat → Bool → List Char → Bool
  | 0, _, _ => false
  | _ + 1, _, [] => false
  | f + 1, prevW, c :: t =>
    if prevW = false ∧ (wordAt words (c :: t)).isSome then true
    else searchWordF words f (wordChar c) t

def searchWord (words : List String) (s : List Char) : Bool :=
  searchWordF words (s.length + 1) false s

/-! ### JSON values

`json.loads` payloads are modelled by a mutual inductive (arrays and objects
as their own list types so that all recursion stays structural). Object keys
are assumed unique, as produced by `json.loads`. -/

mutual
inductive Json where
  | null : Json
  | bool (b : Bool) : Json
  | num (n : Int) : Json
  | str (s : String) : Json
  | arr (xs : JsonArr) : Json
  | obj (kvs : JsonObj) : Json
inductive JsonArr where
  | nil : JsonArr
  | cons (hd : Json) (tl : JsonArr) : JsonArr
inductive JsonObj where
  | nil : JsonObj
  | cons (k : String) (v : Json) (tl : JsonObj) : JsonObj
end

def JsonArr.toList : JsonArr → List Json
  | .nil => []
  | .cons x t => x :: t.toList

def JsonArr.ofList : List Json → JsonArr
  | [] => .nil
  | x :: t => .cons x (JsonArr.ofList t)

def JsonObj.ofList : List (String × Json) → JsonObj
  | [] => .nil
  | (k, v) :: t => .cons k v (JsonObj.ofList t)

/-- Array literal helper (used only to build concrete documents). -/
def jarr (xs : List Json) : Json := .arr (JsonArr.ofList xs)

/-- Object literal helper (used only to build concrete documents). -/
def jobj (kvs : List (String × Json)) : Json := .obj (JsonObj.ofList kvs)

def jLookup : JsonObj → String → Json
  | .nil, _ => .null
  | .cons k2 v t, k => if k2 = k then v else jLookup t k

/-- Python `node.get(key)`; `Json.null` models Python `None` (also returned
when the value is not a dict). -/
def jGet (j : Json) (k : String) : Json :=
  match j with
  | .obj kvs => jLookup kvs k
  | _ => .null

/-- Python `isinstance(v, dict)`. -/
def Json.isObj : Json → Bool
  | .obj _ => true
  | _ => false

/-- Python truthiness of a parsed-JSON value. -/
def jTruthy : Json → Bool
  | .null => false
  | .bool b => b
  | .num n => n ≠ 0
  | .str s => s ≠ ""
  | .arr .nil => false
  | .arr (.cons _ _) => true
  | .obj .nil => false
  | .obj (.cons _ _ _) => true

/- Python `str(...)` of a parsed-JSON value (`repr`-style for containers);
only reached by `_as_text` for dict values without a `name` key. -/
mutual
def pyRepr : Json → String
  | .null => "None"
  | .bool b => if b then "True" else "False"
  | .num n => toString n
  | .str s => "\x27" ++ s ++ "\x27"
  | .arr xs => "[" ++ pyReprArr xs ++ "]"
  | .obj kvs => "\x7b" ++ pyReprObj kvs ++ "\x7d"
def pyReprArr : JsonArr → String
  | .nil => ""
  | .cons x .nil => pyRepr x
  | .cons x (.cons y t) => pyRepr x ++ ", " ++ pyReprArr (.cons y t)
def pyReprObj : JsonObj → String
  | .nil => ""
  | .cons k v .nil => "\x27" ++ k ++ "\x27: " ++ pyRepr v
  | .cons k v (.cons k2 v2 t) => "\x27" ++ k ++ "\x27: " ++ pyRepr v ++ ", " ++ pyReprObj (.cons k2 v2 t)
end

/- `_as_text`: converts a JSON-LD value (str/list/dict) to safe text. -/
mutual
def as_text : Json → String
  | .null => ""
  | .str s => pyStrip s
  | .bool b => pyStrip (if b then "True" else "False")
  | .num n => pyStrip (toString n)
  | .arr xs => joinSepStr (", ") (asTextArr xs)
  | .obj kvs =>
    match asTextName kvs with
    | some s => s
    | none => pyRepr (.obj kvs)
def asTextArr : JsonArr → List String
  | .nil => []
  | .cons x t =>
    let s := as_text x
    if s ≠ "" then s :: asTextArr t else asTextArr t
def asTextName : JsonObj → Option String
  | .nil => none
  | .cons k v t => if k = "name" then some (as_text v) else asTextName t
end

/-! ### HTML text stripping and the extraction record -/

/-- Prepend a char to the first segment of a non-empty segment list. -/
def consHead (c : Char) : List (List Char) → List (List Char)
  | [] => [[c]]
  | x :: xs => (c :: x) :: xs

/-- Split an HTML string into its text segments (everything outside `<...>`
tags); the boolean tracks whether the scanner is inside a tag. -/
def splitTagsF : Nat → Bool → List Char → List (List Char)
  | 0, _, _ => [[]]
  | _ + 1, _, [] => [[]]
  | f + 1, true, c :: t => if c = ('>') then splitTagsF f false t else splitTagsF f true t
  | f + 1, false, c :: t =>
    if c = ('<') then [] :: splitTagsF f true t else consHead c (splitTagsF f false t)

/-- `_strip_html`: models `BeautifulSoup(html, "html.parser").get_text(" ", strip=True)`
for markup without entities or comments — every text segment is stripped and
the non-empty ones are joined with single spaces. -/
def strip_html (html : String) : String :=
  String.mk (joinSep ([' '])
    (((splitTagsF (html.data.length + 1) false html.data).map trimL).filter (fun x => x ≠ [])))

/-- The accumulating extraction record: models the `Dict[str, str]` that
`_parse_offer_html` threads through the extractors. A missing key and an
empty value are indistinguishable for every read the source performs
(`data.get(k)` followed by truthiness tests), so fields default to `""`
(respectively `false` for the two boolean markers the source stores). -/
structure Rec where
  has_jobposting : Bool := false
  has_detail : Bool := false
  url : String := ""
  source_url : String := ""
  source_site : String := ""
  source : String := ""
  titre_poste : String := ""
  entreprise : String := ""
  localisation : String := ""
  type_contrat : String := ""
  texte_annonce : String := ""
  og_description : String := ""
  dump_path : String := ""
deriving Repr, DecidableEq

/-- One `<meta>` tag, as the OpenGraph extractor reads it. -/
structure MetaTag where
  property : Option String := none
  name : Option String := none
  content : Option String := none
deriving Repr, DecidableEq

/-- A parsed document: the BeautifulSoup-derived artifacts the pipeline reads.
`ldScripts` holds one entry per `<script type="application/ld+json">` tag:
`some payload` when `json.loads(script.string or "")` succeeds, `none` when it
raises (malformed JSON or empty body). `jobupContainerText` is the
newline-joined text of the container of the last tag containing the Jobup
detail marker (`none` when no tag contains it); `targetedText` and
`visibleText` are the outputs of `_extract_targeted_job_text` and
`_extract_visible_text` (selector-based text harvesting, abstracted at the
soup boundary). -/
structure Doc where
  metas : List MetaTag := []
  ldScripts : List (Option Json) := []
  pageTitle : Option String := none
  jobupContainerText : Option String := none
  targetedText : String := ""
  visibleText : String := ""

/-! ### URL helpers -/

/-- Components of a parsed URL (`urllib.parse.urlparse`, restricted to the
fields the pipeline reads). -/
structure UrlParts where
  scheme : String := ""
  netloc : String := ""
  path : String := ""
  query : String := ""
deriving Repr, DecidableEq

/-- Models `urllib.parse.urlparse` for the common absolute form
`scheme://netloc/path?query`; an input without `://` is treated as having
empty scheme and netloc. -/
def urlparse (s : String) : UrlParts :=
  match afterSub ("://".data) s.data with
  | none => { path := s }
  | some rest =>
    let scheme := lowerL (beforeSub ("://".data) s.data)
    let netloc := rest.takeWhile (fun c => c ≠ ('/') ∧ c ≠ ('?') ∧ c ≠ ('#'))
    let rest2 := rest.drop netloc.length
    let path := rest2.takeWhile (fun c => c ≠ ('?') ∧ c ≠ ('#'))
    let rest3 := rest2.drop path.length
    let query := (match rest3 with
      | [] => []
      | _ :: t => t.takeWhile (fun c => c ≠ ('#')))
    { scheme := String.mk scheme, netloc := String.mk netloc,
      path := String.mk path, query := String.mk query }

/-- Models `urllib.parse.urlunparse` on the components above. -/
def urlunparse (p : UrlParts) : String :=
  p.scheme ++ "://" ++ p.netloc ++ p.path ++ (if p.query = "" then "" else "?" ++ p.query)

/-- Python `a or b` on strings. -/
def pyOrS (a b : String) : String := if a = "" then b else a

/-- Python `a or b` on optional strings (`meta.get("property") or meta.get("name")`). -/
def pyOrOpt : Option String → Option String → Option String
  | some s, b => if s = "" then b else some s
  | none, b => b

/-- `_humanize_domain`. -/
def humanize_domain (domain : String) : String :=
  String.mk ((replaceS domain ("www.") ("")).data.takeWhile (fun c => c ≠ (':')))

/-- `_domain_is_jobup`. -/
def domain_is_jobup (source_site : String) : Bool :=
  let host := replaceS (lowerS source_site) ("www.") ("")
  String.mk (host.data.takeWhile (fun c => c ≠ (':'))) = "jobup.ch"

/-- `_is_probable_detail_url`. -/
def is_probable_detail_url (url : String) : Bool :=
  if url = "" then false
  else
    let p := urlparse url
    let path := lowerS p.path
    if strContains path ("/detail/") ∨ strContains path ("/job/") ∨ strContains path ("/jobs/") then true
    else if strContains path ("emplois") ∧ strContains path ("detail") then true
    else false

/-- Separator characters of the `_clean_title` regex `\s+[-|–•].*$`. -/
def isSepChar (c : Char) : Bool := c = ('-') ∨ c = ('|') ∨ c = ('–') ∨ c = ('•')

/-- At least one whitespace character followed by a separator character. -/
def wsThenSep (s : List Char) : Bool :=
  match s with
  | [] => false
  | c :: _ =>
    isWsC c && (match s.dropWhile isWsC with
      | d :: _ => isSepChar d
      | [] => false)

/-- Drop everything from the first `\s+[-|–•]` on (the regex is anchored by
`.*$`; titles are single-line, so the suffix is the rest of the string). -/
def cleanTitleCut : List Char → List Char
  | [] => []
  | c :: t => if wsThenSep (c :: t) then [] else c :: cleanTitleCut t

/-- `_clean_title`. -/
def clean_title (title : String) : String :=
  if title = "" then "" else pyStrip (String.mk (cleanTitleCut title.data))

/-! ### Extractors: OpenGraph and JSON-LD JobPosting -/

/-- One step of `_extract_opengraph`: handle a single `<meta>` tag.
The key map is `og:title → titre_poste`, `og:description → _og_description`,
`og:site_name → source`; a field is written only when currently empty
(first occurrence wins, set-if-absent). -/
def ogStep (data : Rec) (m : MetaTag) : Rec :=
  let prop := pyOrOpt m.property m.name
  match prop, m.content with
  | some p, some content =>
    if content = "" then data
    else if p = "og:title" then
      (if data.titre_poste = "" then { data with titre_poste := pyStrip content } else data)
    else if p = "og:description" then
      (if data.og_description = "" then { data with og_description := pyStrip content } else data)
    else if p = "og:site_name" then
      (if data.source = "" then { data with source := pyStrip content } else data)
    else data
  | _, _ => data

/-- `_extract_opengraph` over the document's meta tags. -/
def extract_opengraph (metas : List MetaTag) (data : Rec) : Rec :=
  metas.foldl ogStep data

/-- The node list of one JSON-LD payload: a list payload yields its elements,
a dict with an `@graph` list yields that list, any other dict yields itself,
anything else contributes nothing. -/
def jpNodes (payload : Json) : List Json :=
  match payload with
  | .arr xs => xs.toList
  | .obj _ =>
    (match jGet payload ("@graph") with
     | .arr g => g.toList
     | _ => [payload])
  | _ => []

/-- Whether a node's `@type` is `"JobPosting"` or a list containing it. -/
def isJobPosting (node : Json) : Bool :=
  match jGet node ("@type") with
  | .str s => s = "JobPosting"
  | .arr xs => xs.toList.any (fun x => match x with | .str s => s = "JobPosting" | _ => false)
  | _ => false

/-- The richer-wins update for the description field: the candidate replaces
the current value exactly when the current value is empty or the candidate is
strictly longer (source lines 355-358). -/
def descReplace (current cand : String) : String :=
  if current = "" ∨ current.length < cand.length then cand else current

/-- Set-if-absent fill of the title from a JobPosting node (lines 332-333). -/
def jpTitre (node : Json) (d : Rec) : Rec :=
  if d.titre_poste = "" then { d with titre_poste := as_text (jGet node ("title")) } else d

/-- Set-if-absent fill of the company from `hiringOrganization.name`
(lines 335-337: `hiring = node.get(...) or {}`, then
`if isinstance(hiring, dict) and not data.get("entreprise")`). -/
def jpEntreprise (node : Json) (d : Rec) : Rec :=
  let hiring := (let v := jGet node ("hiringOrganization"); if jTruthy v then v else .obj .nil)
  if hiring.isObj ∧ d.entreprise = "" then { d with entreprise := as_text (jGet hiring ("name")) } else d

/-- Set-if-absent fill of the location from
`jobLocation[0].address.addressLocality` (lines 339-346). `addr` is computed
unconditionally here (`jGet` of a non-dict is `null`, so `addr` is then `{}`),
which agrees with the source where `addr` is only read under the
`isinstance(loc, dict)` test that also guards this update. -/
def jpLocalisation (node : Json) (d : Rec) : Rec :=
  let loc0 := jGet node ("jobLocation")
  let loc := (match loc0 with | .arr (.cons x _) => x | _ => loc0)
  let addr := (let a := jGet loc ("address"); if jTruthy a then a else .obj .nil)
  if loc.isObj ∧ addr.isObj ∧ d.localisation = "" then
    { d with localisation := as_text (jGet addr ("addressLocality")) }
  else d

/-- Set-if-absent fill of the contract type from `employmentType`
(lines 348-349). -/
def jpContrat (node : Json) (d : Rec) : Rec :=
  if d.type_contrat = "" then { d with type_contrat := as_text (jGet node ("employmentType")) } else d

/-- The richer-wins description update from a node's `description`
(lines 351-358). -/
def jpDesc (node : Json) (d : Rec) : Rec :=
  let descV := jGet node ("description")
  if jTruthy descV then
    let new_desc := strip_html (as_text descV)
    if new_desc ≠ "" then { d with texte_annonce := descReplace d.texte_annonce new_desc }
    else d
  else d

/-- Processing of one JobPosting node (body of the `for node in nodes` loop of
`_extract_json_ld_jobposting`, lines 321-358): non-dict nodes and non-JobPosting
nodes contribute nothing; otherwise `_has_jobposting` is set and the field
fills run in source order. -/
def jpStep (data : Rec) (node : Json) : Rec :=
  if ¬ node.isObj then data
  else if ¬ isJobPosting node then data
  else
    jpDesc node (jpContrat node (jpLocalisation node (jpEntreprise node
      (jpTitre node { data with has_jobposting := true }))))

/-- One script of `_extract_json_ld_jobposting`: a script whose body failed
`json.loads` (`none`) contributes nothing; otherwise every JobPosting node of
the payload is processed in order. -/
def ldScriptStep (data : Rec) (script : Option Json) : Rec :=
  match script with
  | none => data
  | some payload => (jpNodes payload).foldl jpStep data

/-- `_extract_json_ld_jobposting` over the document's JSON-LD scripts. -/
def extract_json_ld_jobposting (scripts : List (Option Json)) (data : Rec) : Rec :=
  scripts.foldl ldScriptStep data

/-! ### The Jobup structured-block heuristic extractor

`_extract_jobup_detail_from_page` works on the newline-joined text of the
container around the last occurrence of the marker
"Détails de l\x27annonce d\x27emploi"; locating that container is BeautifulSoup
tree-walking and is abstracted by `Doc.jobupContainerText`. Everything from
`text.find(marker)` on (source lines 414-529) is embedded below. -/

def jobupMarker : String := "Détails de l\x27annonce d\x27emploi"

def jobupInfos : String := "Infos sur l\x27emploi"

/-- The end-of-section markers (source lines 425-434); the first one present
cuts the detail text. -/
def jobupEndMarkers : List String :=
  ["Catégories:",
   "À propos de l\x27entreprise",
   "À propos de l’entreprise",
   "Voir le profil de l’entreprise",
   "Voir le profil de l\x27entreprise",
   "Signaler cette offre",
   "Signaler cette offre d\x27emploi",
   "Ouvrir dans un nouvel onglet"]

def cutEnds : List String → List Char → List Char
  | [], d => d
  | mk :: rest, d => if subOccurs mk.data d then beforeSub mk.data d else cutEnds rest d

/-- The labelled-field names of the "Infos sur l\x27emploi" block. -/
def kvLabels : List String :=
  ["Date de publication", "Taux d\x27activité", "Type de contrat", "Lieu de travail"]

/-- The section headers that also terminate a captured value. -/
def sectionWords : List String :=
  ["Nous recherchons", "Missions", "Profil", "Conditions", "À propos"]

/-- The lookahead of the `_kv` regex: end of string, or a newline followed by
a known label and a colon, or a newline followed by a known section word
(pattern `(?=\n(?:labels)\s*:|\n(?:sections)|\Z)`, case-insensitive). -/
def kvBoundary (s : List Char) : Bool :=
  match s with
  | [] => true
  | c :: rest =>
    if c = ('\n') then
      (kvLabels.any fun L =>
        match matchCI L.data rest with
        | some r => (match dropWsL r with | d :: _ => d = (':') | [] => false)
        | none => false)
      || (sectionWords.any fun W => (matchCI W.data rest).isSome)
    else false

/-- Lazy capture `(.+?)` up to the first position where `kvBoundary` holds:
accumulate at least one character and stop as soon as the boundary matches. -/
def capFrom : List Char → List Char → Option (List Char)
  | acc, [] => if acc ≠ [] ∧ kvBoundary [] then some acc.reverse else none
  | acc, c :: t =>
    if acc ≠ [] ∧ kvBoundary (c :: t) then some acc.reverse
    else capFrom (c :: acc) t

/-- Backtracking of the greedy `\s*` before the lazy capture: try the longest
whitespace run first, shrinking until the capture succeeds. -/
def kvCaptureNum (after : List Char) : Nat → Option (List Char)
  | 0 => capFrom [] after
  | i + 1 =>
    match capFrom [] (after.drop (i + 1)) with
    | some c => some c
    | none => kvCaptureNum after i

def kvCapture (after : List Char) : Option (List Char) :=
  kvCaptureNum after (countWs after)

/-- Leftmost-match search of the `_kv` pattern
`{label}\s*:\s*(.+?)(?=...)` (case-insensitive, DOTALL): at each position try
the label, then `\s*`, then a colon, then the capture. -/
def kvScan (label : List Char) : List Char → Option (List Char)
  | [] => none
  | c :: t =>
    match matchCI label (c :: t) with
    | some rest =>
      (match dropWsL rest with
       | d :: after =>
         if d = (':') then
           (match kvCapture after with
            | some cap => some cap
            | none => kvScan label t)
         else kvScan label t
       | [] => kvScan label t)
    | none => kvScan label t

/-- `_kv`: captured value with whitespace runs collapsed and stripped
(`re.sub(r"\s+", " ", m.group(1)).strip()`), or `""` when no match. -/
def jobupKv (label : String) (detail : String) : String :=
  match kvScan label.data detail.data with
  | some cap => String.mk (trimL (collapseWs1 cap))
  | none => ""

def afterFirstNl : List Char → Option (List Char)
  | [] => none
  | c :: t => if c = ('\n') then some t else afterFirstNl t

def afterLastNl : List Char → Option (List Char)
  | [] => none
  | c :: t =>
    match afterLastNl t with
    | some r => some r
    | none => if c = ('\n') then some t else none

/-- The description regex `Lieu de travail\s*:\s*.*?\n(.*)` (IGNORECASE,
DOTALL): after the label, colon and the greedy whitespace run, the group
captures everything after the first newline at or beyond the run (falling
back, as the greedy `\s*` backtracks, to the last newline inside the run). -/
def descScan : List Char → Option (List Char)
  | [] => none
  | c :: t =>
    match matchCI ("Lieu de travail").data (c :: t) with
    | some rest =>
      (match dropWsL rest with
       | d :: after =>
         if d = (':') then
           let k := countWs after
           (match afterFirstNl (after.drop k) with
            | some g => some g
            | none =>
              match afterLastNl (after.take k) with
              | some r => some (r ++ after.drop k)
              | none => descScan t)
         else descScan t
       | [] => descScan t)
    | none => descScan t

/-- A line-erasing match of
`re.sub(r"\n(Date de publication|Taux d\x27activité|Type de contrat|Lieu de travail)\s*:\s*.*", " ", ...)`:
after the newline, a label, `\s*`, a colon, greedy `\s*`, then the rest of the
line; returns the remainder after the match. -/
def kvLineMatch (rest : List Char) : Option (List Char) :=
  firstSome kvLabels fun L =>
    match matchCI L.data rest with
    | some r =>
      (match dropWsL r with
       | d :: a2 =>
         if d = (':') then some ((dropWsL a2).dropWhile (fun c => c ≠ ('\n')))
         else none
       | [] => none)
    | none => none

def subKvLinesF : Nat → List Char → List Char
  | 0, s => s
  | _ + 1, [] => []
  | f + 1, c :: t =>
    if c = ('\n') then
      match kvLineMatch t with
      | some remainder => (' ') :: subKvLinesF f remainder
      | none => c :: subKvLinesF f t
    else c :: subKvLinesF f t

def subKvLines (s : List Char) : List Char := subKvLinesF (s.length + 1) s

/-- The CTA words removed from header and description
(`Postuler|Sauvegarder|Candidature simplifiée|Nouveau|Mis en avant`). -/
def ctaWords : List String :=
  ["Postuler", "Sauvegarder", "Candidature simplifiée", "Nouveau", "Mis en avant"]

/-- The Swiss city names of the company-line filter. -/
def jobupCities : List String :=
  ["Genève", "Lausanne", "Renens", "Neuchâtel", "Zürich", "Basel", "Bern", "Bienne", "Sion"]

/-- `_is_seo` (nested in `_extract_jobup_detail_from_page`). -/
def jobupIsSeo (s : String) : Bool :=
  let s2 := lowerS s
  strContains s2 ("offres d\x27emploi") ∨ strContains s2 ("catégorie") ∨ strContains s2 ("trouvées sur jobup")

/-- The title/company loop over the header lines: the first non-SEO line is
the title; the next non-SEO line becomes the company (unless it looks like a
city name) and the loop breaks. -/
def candLoop : List String → String → String → (String × String)
  | [], t, c => (t, c)
  | ln :: rest, t, c =>
    if t = "" ∧ ¬ jobupIsSeo ln then candLoop rest ln c
    else if t ≠ "" ∧ c = "" ∧ ¬ jobupIsSeo ln then
      (t, if searchWord jobupCities ln.data then "" else ln)
    else candLoop rest t c

/-- `re.split(r"\s{2,}|\s+-\s+", s)`: split at whitespace runs of length at
least two, or at a hyphen surrounded by whitespace (alternatives tried in
order, greedy). -/
def gapSplitF : Nat → List Char → List Char → List (List Char)
  | 0, acc, s => [acc.reverse ++ s]
  | _ + 1, acc, [] => [acc.reverse]
  | f + 1, acc, c :: t =>
    if isWsC c then
      let run := (c :: t).takeWhile isWsC
      if 2 ≤ run.length then acc.reverse :: gapSplitF f [] ((c :: t).drop run.length)
      else
        match t with
        | d :: r2 =>
          if d = ('-') then
            let run2 := r2.takeWhile isWsC
            (if 1 ≤ run2.length then acc.reverse :: gapSplitF f [] (r2.drop run2.length)
             else gapSplitF f (c :: acc) t)
          else gapSplitF f (c :: acc) t
        | [] => gapSplitF f (c :: acc) t
    else gapSplitF f (c :: acc) t

def gapSplit (s : List Char) : List (List Char) := gapSplitF (s.length + 1) [] s

/-- Steps 3-5 of `_extract_jobup_detail_from_page`: cut the container text at
the marker, require the "Infos sur l\x27emploi" landmark, cut at the first end
marker, then normalize (`\r` removed, newline runs collapsed, stripped).
Returns `none` where the source returns early. -/
def jobupDetailText (text : String) : Option String :=
  match fromSub jobupMarker.data text.data with
  | none => none
  | some d0 =>
    if ¬ subOccurs jobupInfos.data d0 then none
    else some (String.mk (trimL (collapseNl (dropCRl (cutEnds jobupEndMarkers d0)))))

/-- The candidate values the Jobup extractor derives from the normalized
detail text; all of them are independent of the accumulated record. -/
structure JobupCands where
  loc : String
  contrat : String
  title_cand : String
  company_cand : String
  desc_text : String
deriving Repr, DecidableEq

/-- Steps 6-8 of `_extract_jobup_detail_from_page`: the labelled key/values,
the header-derived title/company candidates (including the
`\s{2,}|\s+-\s+` split fallback when no company line was found), and the
cleaned description text after the "Lieu de travail" line. -/
def jobupCandsOf (detail : String) : JobupCands :=
  let loc := jobupKv ("Lieu de travail") detail
  let contrat := jobupKv ("Type de contrat") detail
  let header0 := beforeSub jobupInfos.data detail.data
  let header1 := (replaceS (String.mk header0) jobupMarker (" ")).data
  let header2 := subWords ctaWords header1
  let header3 := trimL (collapseWs2 header2)
  let raw0 := ((splitNl header3).map trimL).filter (fun x => x ≠ [])
  let raw :=
    if raw0 = [] then
      (if header3 ≠ [] then [trimL (joinSep ([' ']) ((splitPyWs header3).take 20))] else [])
    else raw0
  let (t0, c0) := candLoop (raw.map String.mk) ("") ("")
  let t1 :=
    if t0 ≠ "" ∧ c0 = "" then
      (let parts := gapSplit t0.data
       if 2 ≤ parts.length then pyStrip (String.mk (parts.headD [])) else t0)
    else t0
  let descRaw := (match descScan detail.data with | some g => trimL g | none => [])
  let desc1 := subKvLines descRaw
  let desc2 := subWords ctaWords desc1
  let desc3 := trimL (collapseWs2 desc2)
  { loc := loc, contrat := contrat, title_cand := t1,
    company_cand := c0, desc_text := String.mk desc3 }

/-- The record updates of `_extract_jobup_detail_from_page` (source lines
456-529): location, contract type and company are set-if-absent; the title is
assigned unconditionally whenever a non-SEO candidate exists (line 504); the
description is filled only when absent and longer than 200 characters; and
`_has_detail` is set when a long description and a plausible title were
obtained. -/
def juLoc (c : JobupCands) (d : Rec) : Rec :=
  if c.loc ≠ "" ∧ d.localisation = "" then { d with localisation := c.loc } else d

def juContrat (c : JobupCands) (d : Rec) : Rec :=
  if c.contrat ≠ "" ∧ d.type_contrat = "" then { d with type_contrat := c.contrat } else d

/-- The unconditional title assignment of line 504 (`data["titre_poste"] =
title_candidate` with no absence check). -/
def juTitre (c : JobupCands) (d : Rec) : Rec :=
  if c.title_cand ≠ "" ∧ ¬ jobupIsSeo c.title_cand then { d with titre_poste := c.title_cand } else d

def juCompany (c : JobupCands) (d : Rec) : Rec :=
  if c.company_cand ≠ "" ∧ d.entreprise = "" then { d with entreprise := c.company_cand } else d

def juDesc (c : JobupCands) (d : Rec) : Rec :=
  if d.texte_annonce = "" then
    (if 200 < c.desc_text.length then { d with texte_annonce := String.mk (c.desc_text.data.take 8000) } else d)
  else d

/-- Step 9: mark `_has_detail` when a long description and a plausible title
were obtained. -/
def juHasDetail (d : Rec) : Rec :=
  let titre := lowerS (pyStrip d.titre_poste)
  if d.texte_annonce ≠ "" ∧ 200 < d.texte_annonce.length ∧ titre ≠ "" ∧
      ¬ strContains titre ("offres d\x27emploi") then
    { d with has_detail := true }
  else d

def applyJobup (c : JobupCands) (data : Rec) : Rec :=
  juHasDetail (juDesc c (juCompany c (juTitre c (juContrat c (juLoc c data)))))

/-- `_extract_jobup_detail_from_page`. -/
def extract_jobup_detail_from_page (containerText : Option String) (data : Rec) : Rec :=
  match containerText with
  | none => data
  | some text =>
    match jobupDetailText text with
    | none => data
    | some detail => applyJobup (jobupCandsOf detail) data

/-! ### Page classifier -/

def listingMarkers : List String :=
  ["offres d\x27emploi", "offres emploi", "jobs", "job", "catégorie",
   "recherche", "search", "result", "résultats"]

def genericMarkers : List String :=
  ["trouvez", "découvrez", "postulez", "emploi", "jobup", "annonces"]

/-- The page title as the source computes it:
`soup.title.string.strip() if soup.title and soup.title.string else ""`. -/
def pageTitleStr (pageTitle : Option String) : String :=
  match pageTitle with
  | some t => pyStrip t
  | none => ""

/-- `_looks_like_listing_or_shell`: short-circuits on `_has_detail`; flags the
page when the lowered `<title>` contains a listing keyword, or when a JSON-LD
script is present, no JobPosting qualified, and the staged OpenGraph
description contains at least two marketing keywords. -/
def looks_like_listing_or_shell (pageTitle : Option String) (hasLdScript : Bool) (data : Rec) : Bool :=
  if data.has_detail then false
  else
    let title := lowerS (pageTitleStr pageTitle)
    if listingMarkers.any (fun m => strContains title m) then true
    else if hasLdScript ∧ ¬ data.has_jobposting then
      (let og_desc := lowerS data.og_description
       og_desc ≠ "" ∧ 2 ≤ genericMarkers.countP (fun m => strContains og_desc m))
    else false

/-! ### Diagnostics writer, errors, and the parse pipeline -/

/-- A coarse filesystem oracle for the dump writer: whether creating the dump
directory and opening the dump file fail. -/
structure Fs where
  mkdirFails : Bool := false
  openFails : Bool := false
deriving Repr, DecidableEq

/-- The filesystem that cooperates. -/
def okFs : Fs := {}

/-- The dump path `imports_debug/import_{domain}_{ts}.txt` built by
`_write_import_dump_txt` (the `Path.cwd()` prefix is elided; `ts` stands for
`datetime.now().strftime("%Y%m%d-%H%M%S")`). -/
def dumpPathOf (url ts : String) : String :=
  "imports_debug/import_" ++ (pyOrS (replaceS (urlparse url).netloc (":") ("_")) ("unknown") ++ ("_" ++ (ts ++ ".txt")))

/-- `_write_import_dump_txt`: the body text written to the file is not
modelled (no claim concerns it); what is modelled is the path construction
and the control flow — the function contains no exception handler, so a
failure of `dumps_dir.mkdir(...)` (line 642) or of `path.open("w")`
(line 653) propagates to the caller as an `OSError`. -/
def write_import_dump_txt (fs : Fs) (url ts : String) : Except String String :=
  if fs.mkdirFails then .error ("OSError: cannot create imports_debug")
  else if fs.openFails then .error ("OSError: cannot open dump file")
  else .ok (dumpPathOf url ts)

/-- The user-facing error taxonomy: `urlImport` models `UrlImportError`,
`osError` models an uncaught `OSError` escaping the dump writer. -/
inductive Err where
  | urlImport (msg : String) : Err
  | osError (msg : String) : Err
deriving Repr, DecidableEq

def Err.isUrlImport : Err → Bool
  | .urlImport _ => true
  | .osError _ => false

/-- Outcome of a pipeline run: the returned record or the raised error, plus
the list of dump files successfully written during the run (in order). -/
structure PipeOut where
  result : Except Err Rec
  dumps : List String
deriving Repr

/-- The message of the trust-gate `UrlImportError` (source lines 156-161);
it ends with the dump path. -/
def listingShellMsg (p : String) : String :=
  "Je n\x27ai pas récupéré une page \x27détail d\x27annonce\x27 (probablement une liste, une page SEO, une page de consentement ou un contenu chargé en JavaScript). Essaie avec une URL de détail d\x27annonce (pas une liste) ou utilise le mode navigateur intégré. Dump: " ++ p

/-- The extraction phase of `_parse_offer_html` (lines 119-142): the base
record with provenance fields, then OpenGraph, then JSON-LD JobPosting, then
— for jobup.ch documents — the structured-block heuristic. -/
def extractionPhase (doc : Doc) (url finalUrl : String) : Rec :=
  let src := pyOrS finalUrl url
  let site := lowerS (urlparse src).netloc
  let base : Rec := { url := url, source_url := src, source_site := site, source := humanize_domain site }
  let d1 := extract_opengraph doc.metas base
  let d2 := extract_json_ld_jobposting doc.ldScripts d1
  if domain_is_jobup d2.source_site then extract_jobup_detail_from_page doc.jobupContainerText d2 else d2

/-- `_parse_offer_html` (lines 118-188): extraction phase, trust gate (which
writes a diagnostics dump and then raises `UrlImportError` with the dump path
in the message), description and title fallbacks, final dump write, and the
returned record carrying `_dump_path`. -/
def parse_offer_html (fs : Fs) (doc : Doc) (url finalUrl ts : String) : PipeOut :=
  let d3 := extractionPhase doc url finalUrl
  if ¬ d3.has_jobposting ∧ ¬ d3.has_detail ∧
      looks_like_listing_or_shell doc.pageTitle (!doc.ldScripts.isEmpty) d3 then
    match write_import_dump_txt fs url ts with
    | .ok p => { result := .error (.urlImport (listingShellMsg p)), dumps := [p] }
    | .error e => { result := .error (.osError e), dumps := [] }
  else
    let d4 :=
      if d3.texte_annonce = "" ∧ pyStrip d3.og_description ≠ "" then
        { d3 with texte_annonce := pyStrip d3.og_description }
      else d3
    let d5 :=
      if d4.titre_poste = "" then { d4 with titre_poste := clean_title (pageTitleStr doc.pageTitle) }
      else d4
    let d6 :=
      if d5.texte_annonce = "" then
        { d5 with texte_annonce := pyOrS doc.targetedText doc.visibleText }
      else d5
    match write_import_dump_txt fs url ts with
    | .ok p => { result := .ok { d6 with dump_path := p }, dumps := [p] }
    | .error e => { result := .error (.osError e), dumps := [] }

/-! ### Fetching and the orchestrator -/

/-- Outcome of one `SESSION.get` attempt: a response with a status code,
body text and final (redirected) URL, or a raised exception (timeout,
connection error, ...). -/
inductive NetResp where
  | ok (status : Nat) (text finalUrl : String) : NetResp
  | exc (msg : String) : NetResp

/-- Python `str` of the `last_exc` variable (`None` when no attempt ran). -/
def excMsgOf : Option String → String
  | none => "None"
  | some m => m

/-- The soft-block message of `_fetch_html` (source lines 218-222). -/
def blockedMsg (st : Nat) : String :=
  "Accès bloqué (HTTP " ++ (toString st ++ ("). Le site peut nécessiter un " ++
    ("navigateur" ++ (" (JavaScript / anti-bot). Essaie le mode " ++ ("navigateur" ++ ".")))))

/-- The message raised after the retry budget is exhausted (line 238). -/
def fetchFailMsg (last : Option String) : String :=
  "Impossible de récupérer la page: " ++ excMsgOf last

/-- The retry loop of `_fetch_html`: `i` is the attempt index consulted on the
network oracle, `r` the remaining budget (`range(3)` gives 3 attempts).
HTTP 403/429 raises the soft-block `UrlImportError` at once (re-raised by the
`except UrlImportError` arm); any other status at or above 400 is the
`raise_for_status` exception, which — like connection errors — is recorded and
retried. -/
def fetchGo (net : Nat → NetResp) : Nat → Nat → Option String → Except Err (String × String)
  | _, 0, last => .error (.urlImport (fetchFailMsg last))
  | i, r + 1, last =>
    match net i with
    | .ok st text finalUrl =>
      if st = 403 ∨ st = 429 then .error (.urlImport (blockedMsg st))
      else if 400 ≤ st then fetchGo net (i + 1) r (some ("HTTPError " ++ toString st))
      else .ok (text, finalUrl)
    | .exc m => fetchGo net (i + 1) r (some m)

/-- `_fetch_html`. -/
def fetch_html (net : Nat → NetResp) : Except Err (String × String) :=
  fetchGo net 0 3 none

/-- The wrapper message of `_fetch_html_playwright` failures (line 276). -/
def pwFailMsg (m : String) : String :=
  "Impossible de récupérer la page via navigateur (Playwright): " ++ m

/-- The ambient world of one import call: the network oracle for the static
fetch, the availability and outcome of the Playwright fetch, the
BeautifulSoup parser (html text to parsed document), the filesystem, and the
timestamp `datetime.now()` renders during this call. -/
structure World where
  net : Nat → NetResp
  hasPlaywright : Bool
  pw : Except String (String × String)
  soupOf : String → Doc
  fs : Fs
  ts : String

/-- `import_offer_from_url` (source lines 50-90): URL validation and
normalization, static fetch, first parse; on a `UrlImportError` from the
parse, a Playwright retry for Jobup detail URLs (any playwright failure there
propagates wrapped); on a successful parse that produced neither
`_has_jobposting` nor `_has_detail` for a Jobup detail URL, a Playwright
retry whose failures — fetch or re-parse — are swallowed by returning the
static result (lines 83-88). -/
def urlImportOffer (w : World) (url : String) : PipeOut :=
  if url = "" then { result := .error (.urlImport ("URL vide")), dumps := [] }
  else
    let p := urlparse url
    if p.scheme = "" ∨ p.netloc = "" then { result := .error (.urlImport ("URL invalide")), dumps := [] }
    else
      let nurl := urlunparse p
      match fetch_html w.net with
      | .error e => { result := .error e, dumps := [] }
      | .ok (html, finalUrl) =>
        let first := parse_offer_html w.fs (w.soupOf html) nurl finalUrl w.ts
        match first.result with
        | .error e =>
          if e.isUrlImport ∧ w.hasPlaywright ∧ domain_is_jobup (urlparse (pyOrS finalUrl nurl)).netloc ∧
              is_probable_detail_url (pyOrS finalUrl nurl) then
            match w.pw with
            | .error m => { result := .error (.urlImport (pwFailMsg m)), dumps := first.dumps }
            | .ok (h2, f2) =>
              let second := parse_offer_html w.fs (w.soupOf h2) nurl f2 w.ts
              { result := second.result, dumps := first.dumps ++ second.dumps }
          else { result := .error e, dumps := first.dumps }
        | .ok data =>
          if w.hasPlaywright ∧ domain_is_jobup data.source_site ∧
              is_probable_detail_url (pyOrS data.source_url nurl) ∧
              ¬ data.has_detail ∧ ¬ data.has_jobposting then
            match w.pw with
            | .error _ => { result := .ok data, dumps := first.dumps }
            | .ok (h2, f2) =>
              let second := parse_offer_html w.fs (w.soupOf h2) nurl f2 w.ts
              (match second.result with
               | .ok r => { result := .ok r, dumps := first.dumps ++ second.dumps }
               | .error _ => { result := .ok data, dumps := first.dumps ++ second.dumps })
          else { result := .ok data, dumps := first.dumps }

/-! ### Generic lemmas about the string machinery -/

theorem strData_append (a b : String) : (a ++ b).data = a.data ++ b.data := rfl

theorem leadEq_refl (l : List Char) : leadEq l l = true := by
  induction l with
  | nil => rfl
  | cons c t ih => simp [leadEq, ih]

theorem leadEq_append (l t : List Char) : leadEq l (l ++ t) = true := by
  induction l with
  | nil => rfl
  | cons c r ih => simp [leadEq, ih]

theorem subOccurs_of_leadEq (pat s : List Char) (h : leadEq pat s = true) : subOccurs pat s = true := by
  cases s with
  | nil =>
    cases pat with
    | nil => rfl
    | cons c t => simp [leadEq] at h
  | cons c t => simp [subOccurs, h]

theorem subOccurs_append_mid (a b c : List Char) : subOccurs b (a ++ (b ++ c)) = true := by
  induction a with
  | nil => exact subOccurs_of_leadEq _ _ (by simpa using leadEq_append b c)
  | cons x r ih =>
    show subOccurs b (x :: (r ++ (b ++ c))) = true
    simp only [subOccurs]
    rw [ih, Bool.or_true]

theorem strContains_concat (pre p suf : String) : strContains (pre ++ (p ++ suf)) p = true := by
  show subOccurs p.data (pre ++ (p ++ suf)).data = true
  rw [strData_append, strData_append]
  exact subOccurs_append_mid pre.data p.data suf.data

theorem strContains_append_self (pre p : String) : strContains (pre ++ p) p = true := by
  show subOccurs p.data (pre ++ p).data = true
  rw [strData_append]
  have := subOccurs_append_mid pre.data p.data []
  rwa [List.append_nil] at this

theorem strLength_append (a b : String) : (a ++ b).length = a.length + b.length := by
  show (a ++ b).data.length = a.data.length + b.data.length
  rw [strData_append, List.length_append]

/-- A string with a non-empty prefix is non-empty. -/
theorem strNeEmpty_of_data_cons (s : String) (c : Char) (t : List Char) (h : s.data = c :: t) :
    s ≠ "" := by
  intro he
  rw [he] at h
  exact List.noConfusion h

/-! ### Concrete inputs shared by the claim theorems -/

/-- A fixed timestamp value standing for `datetime.now().strftime(...)`. -/
def ts0 : String := "20260101-120000"

/-- Scenario A document: a single `application/ld+json` script whose payload
is `{"@type": "JobPosting", "title": "Ingénieur Logiciel",
"hiringOrganization": {"name": "Acme SA"}}`, and no other signal. -/
def c4doc : Doc :=
  { ldScripts := [some (jobj
      [("@type", Json.str ("JobPosting")),
       ("title", Json.str ("Ingénieur Logiciel")),
       ("hiringOrganization", jobj [("name", Json.str ("Acme SA"))])])] }

def c4url : String := "https://example.com/offer"

/-- Claim C4: parsing an HTML document whose only signal is a single JSON-LD
script containing the JobPosting `{"@type": "JobPosting", "title": "Ingénieur
Logiciel", "hiringOrganization": {"name": "Acme SA"}}` succeeds without
raising, and the returned record has `titre_poste = "Ingénieur Logiciel"`,
`entreprise = "Acme SA"` and `_has_jobposting = true`. -/
theorem c4_scenario_a :
    ((parse_offer_html okFs c4doc c4url ("") ts0).result.toOption).map
      (fun r => (r.titre_poste, r.entreprise, r.has_jobposting)) =
    some (("Ingénieur Logiciel"), ("Acme SA"), true) := by
  decide

/-! ### Set-if-absent preservation lemmas -/

/-- A fold preserves a string field as soon as every step preserves it on
non-empty values. -/
theorem foldl_field_preserve {α : Type} (f : Rec → α → Rec) (g : Rec → String)
    (hf : ∀ d a, g d ≠ "" → g (f d a) = g d) :
    ∀ (l : List α) (d : Rec), g d ≠ "" → g (l.foldl f d) = g d := by
  intro l
  induction l with
  | nil => intro d _; rfl
  | cons a t ih =>
    intro d h
    rw [List.foldl_cons, ih (f d a) (by rw [hf d a h]; exact h), hf d a h]

theorem ogStep_titre (d : Rec) (m : MetaTag) (h : d.titre_poste ≠ "") :
    (ogStep d m).titre_poste = d.titre_poste := by
  unfold ogStep
  cases hp : pyOrOpt m.property m.name <;> cases hc : m.content <;> simp only []
  split_ifs <;> simp_all

theorem jpTitre_fields (n : Json) (d : Rec) :
    (jpTitre n d).entreprise = d.entreprise ∧ (jpTitre n d).localisation = d.localisation ∧
    (jpTitre n d).type_contrat = d.type_contrat ∧ (jpTitre n d).texte_annonce = d.texte_annonce ∧
    (jpTitre n d).has_jobposting = d.has_jobposting ∧
    (d.titre_poste ≠ "" → (jpTitre n d).titre_poste = d.titre_poste) := by
  simp only [jpTitre]
  split_ifs <;> simp_all

theorem jpEntreprise_fields (n : Json) (d : Rec) :
    (jpEntreprise n d).titre_poste = d.titre_poste ∧ (jpEntreprise n d).localisation = d.localisation ∧
    (jpEntreprise n d).type_contrat = d.type_contrat ∧ (jpEntreprise n d).texte_annonce = d.texte_annonce ∧
    (jpEntreprise n d).has_jobposting = d.has_jobposting ∧
    (d.entreprise ≠ "" → (jpEntreprise n d).entreprise = d.entreprise) := by
  simp only [jpEntreprise]
  split_ifs <;> simp_all

theorem jpLocalisation_fields (n : Json) (d : Rec) :
    (jpLocalisation n d).titre_poste = d.titre_poste ∧ (jpLocalisation n d).entreprise = d.entreprise ∧
    (jpLocalisation n d).type_contrat = d.type_contrat ∧ (jpLocalisation n d).texte_annonce = d.texte_annonce ∧
    (jpLocalisation n d).has_jobposting = d.has_jobposting ∧
    (d.localisation ≠ "" → (jpLocalisation n d).localisation = d.localisation) := by
  simp only [jpLocalisation]
  split_ifs <;> simp_all

theorem jpContrat_fields (n : Json) (d : Rec) :
    (jpContrat n d).titre_poste = d.titre_poste ∧ (jpContrat n d).entreprise = d.entreprise ∧
    (jpContrat n d).localisation = d.localisation ∧ (jpContrat n d).texte_annonce = d.texte_annonce ∧
    (jpContrat n d).has_jobposting = d.has_jobposting ∧
    (d.type_contrat ≠ "" → (jpContrat n d).type_contrat = d.type_contrat) := by
  simp only [jpContrat]
  split_ifs <;> simp_all

theorem jpDesc_fields (n : Json) (d : Rec) :
    (jpDesc n d).titre_poste = d.titre_poste ∧ (jpDesc n d).entreprise = d.entreprise ∧
    (jpDesc n d).localisation = d.localisation ∧ (jpDesc n d).type_contrat = d.type_contrat ∧
    (jpDesc n d).has_jobposting = d.has_jobposting := by
  simp only [jpDesc]
  split_ifs <;> simp_all

theorem jpStep_preserve (d : Rec) (n : Json) :
    (d.titre_poste ≠ "" → (jpStep d n).titre_poste = d.titre_poste) ∧
    (d.entreprise ≠ "" → (jpStep d n).entreprise = d.entreprise) ∧
    (d.localisation ≠ "" → (jpStep d n).localisation = d.localisation) ∧
    (d.type_contrat ≠ "" → (jpStep d n).type_contrat = d.type_contrat) := by
  unfold jpStep
  split_ifs with h0 h1 <;> try (simp; done)
  set e0 : Rec := { d with has_jobposting := true } with he0
  set e1 := jpTitre n e0 with he1
  set e2 := jpEntreprise n e1 with he2
  set e3 := jpLocalisation n e2 with he3
  set e4 := jpContrat n e3 with he4
  have hf1 := jpTitre_fields n e0
  have hf2 := jpEntreprise_fields n e1
  have hf3 := jpLocalisation_fields n e2
  have hf4 := jpContrat_fields n e3
  have hf5 := jpDesc_fields n e4
  refine ⟨?_, ?_, ?_, ?_⟩ <;> intro h
  · rw [hf5.1, hf4.1, hf3.1, hf2.1, hf1.2.2.2.2.2 h]
  · rw [hf5.2.1, hf4.2.1, hf3.2.1]
    rw [hf2.2.2.2.2.2 (by rw [hf1.1]; exact h), hf1.1]
  · rw [hf5.2.2.1, hf4.2.2.1]
    rw [hf3.2.2.2.2.2 (by rw [hf2.2.1, hf1.2.1]; exact h), hf2.2.1, hf1.2.1]
  · rw [hf5.2.2.2.1]
    rw [hf4.2.2.2.2.2 (by rw [hf3.2.2.1, hf2.2.2.1, hf1.2.2.1]; exact h),
      hf3.2.2.1, hf2.2.2.1, hf1.2.2.1]

theorem ldScriptStep_preserve (d : Rec) (s : Option Json) :
    (d.titre_poste ≠ "" → (ldScriptStep d s).titre_poste = d.titre_poste) ∧
    (d.entreprise ≠ "" → (ldScriptStep d s).entreprise = d.entreprise) ∧
    (d.localisation ≠ "" → (ldScriptStep d s).localisation = d.localisation) ∧
    (d.type_contrat ≠ "" → (ldScriptStep d s).type_contrat = d.type_contrat) := by
  cases s with
  | none => simp [ldScriptStep]
  | some payload =>
    refine ⟨?_, ?_, ?_, ?_⟩ <;> intro h
    · exact foldl_field_preserve jpStep (fun r => r.titre_poste)
        (fun d a hh => (jpStep_preserve d a).1 hh) (jpNodes payload) d h
    · exact foldl_field_preserve jpStep (fun r => r.entreprise)
        (fun d a hh => (jpStep_preserve d a).2.1 hh) (jpNodes payload) d h
    · exact foldl_field_preserve jpStep (fun r => r.localisation)
        (fun d a hh => (jpStep_preserve d a).2.2.1 hh) (jpNodes payload) d h
    · exact foldl_field_preserve jpStep (fun r => r.type_contrat)
        (fun d a hh => (jpStep_preserve d a).2.2.2 hh) (jpNodes payload) d h

theorem juLoc_fields (c : JobupCands) (d : Rec) :
    (juLoc c d).titre_poste = d.titre_poste ∧ (juLoc c d).entreprise = d.entreprise ∧
    (juLoc c d).type_contrat = d.type_contrat ∧ (juLoc c d).texte_annonce = d.texte_annonce ∧
    (d.localisation ≠ "" → (juLoc c d).localisation = d.localisation) := by
  simp only [juLoc]
  split_ifs <;> simp_all

theorem juContrat_fields (c : JobupCands) (d : Rec) :
    (juContrat c d).titre_poste = d.titre_poste ∧ (juContrat c d).entreprise = d.entreprise ∧
    (juContrat c d).localisation = d.localisation ∧ (juContrat c d).texte_annonce = d.texte_annonce ∧
    (d.type_contrat ≠ "" → (juContrat c d).type_contrat = d.type_contrat) := by
  simp only [juContrat]
  split_ifs <;> simp_all

theorem juTitre_fields (c : JobupCands) (d : Rec) :
    (juTitre c d).entreprise = d.entreprise ∧ (juTitre c d).localisation = d.localisation ∧
    (juTitre c d).type_contrat = d.type_contrat ∧ (juTitre c d).texte_annonce = d.texte_annonce := by
  simp only [juTitre]
  split_ifs <;> simp_all

theorem juCompany_fields (c : JobupCands) (d : Rec) :
    (juCompany c d).titre_poste = d.titre_poste ∧ (juCompany c d).localisation = d.localisation ∧
    (juCompany c d).type_contrat = d.type_contrat ∧ (juCompany c d).texte_annonce = d.texte_annonce ∧
    (d.entreprise ≠ "" → (juCompany c d).entreprise = d.entreprise) := by
  simp only [juCompany]
  split_ifs <;> simp_all

theorem juDesc_fields (c : JobupCands) (d : Rec) :
    (juDesc c d).titre_poste = d.titre_poste ∧ (juDesc c d).entreprise = d.entreprise ∧
    (juDesc c d).localisation = d.localisation ∧ (juDesc c d).type_contrat = d.type_contrat := by
  simp only [juDesc]
  split_ifs <;> simp_all

theorem juHasDetail_fields (d : Rec) :
    (juHasDetail d).titre_poste = d.titre_poste ∧ (juHasDetail d).entreprise = d.entreprise ∧
    (juHasDetail d).localisation = d.localisation ∧ (juHasDetail d).type_contrat = d.type_contrat ∧
    (juHasDetail d).texte_annonce = d.texte_annonce := by
  simp only [juHasDetail]
  split_ifs <;> simp_all

theorem applyJobup_preserve (c : JobupCands) (d : Rec) :
    (d.entreprise ≠ "" → (applyJobup c d).entreprise = d.entreprise) ∧
    (d.localisation ≠ "" → (applyJobup c d).localisation = d.localisation) ∧
    (d.type_contrat ≠ "" → (applyJobup c d).type_contrat = d.type_contrat) := by
  unfold applyJobup
  set e1 := juLoc c d with he1
  set e2 := juContrat c e1 with he2
  set e3 := juTitre c e2 with he3
  set e4 := juCompany c e3 with he4
  set e5 := juDesc c e4 with he5
  have h1 := juLoc_fields c d
  have h2 := juContrat_fields c e1
  have h3 := juTitre_fields c e2
  have h4 := juCompany_fields c e3
  have h5 := juDesc_fields c e4
  have h6 := juHasDetail_fields e5
  refine ⟨?_, ?_, ?_⟩ <;> intro h
  · rw [h6.2.1, h5.2.1]
    rw [h4.2.2.2.2 (by rw [h3.1, h2.2.1, h1.2.1]; exact h), h3.1, h2.2.1, h1.2.1]
  · rw [h6.2.2.1, h5.2.2.1, h4.2.1, h3.2.1, h2.2.2.1]
    exact h1.2.2.2.2 h
  · rw [h6.2.2.2.1, h5.2.2.2, h4.2.2.1, h3.2.2.1]
    rw [h2.2.2.2.2 (by rw [h1.2.2.1]; exact h), h1.2.2.1]

theorem jobup_extractor_preserve (ct : Option String) (d : Rec) :
    (d.entreprise ≠ "" → (extract_jobup_detail_from_page ct d).entreprise = d.entreprise) ∧
    (d.localisation ≠ "" → (extract_jobup_detail_from_page ct d).localisation = d.localisation) ∧
    (d.type_contrat ≠ "" → (extract_jobup_detail_from_page ct d).type_contrat = d.type_contrat) := by
  unfold extract_jobup_detail_from_page
  cases ct with
  | none => simp
  | some text =>
    cases h : jobupDetailText text with
    | none => simp only [h]; simp
    | some detail => simp only [h]; exact applyJobup_preserve (jobupCandsOf detail) d

/-! ### Claim C1 -/

set_option maxRecDepth 100000

/-- A Jobup detail-container text: marker, header lines (title, company), the
"Infos sur l\x27emploi" labelled block, and a long description. -/
def c1text : String := "Détails de l\x27annonce d\x27emploi\nDéveloppeuse Backend\nHelvetia Tech SA\nInfos sur l\x27emploi\nLieu de travail : Lausanne\nType de contrat : CDI\nNous recherchons une personne expérimentée pour nos services. Vous concevrez des services, développerez des API robustes, et collaborerez avec nos équipes produit au quotidien pour livrer des fonctionnalités fiables, performantes, sûres et maintenables dans la durée."

/-- A document whose OpenGraph `og:title` is set and whose Jobup detail
container is present. -/
def c1doc : Doc :=
  { metas := [{ property := some ("og:title"), content := some ("Emplois chez Helvetia - postulez") }],
    jobupContainerText := some c1text }

/-- Claim C1, counterexample: after the OpenGraph extractor has filled
`titre_poste` with the non-empty value "Emplois chez Helvetia - postulez",
running the structured-block (Jobup) heuristic extractor on the same document
replaces it with "Développeuse Backend" — the title assignment at source line
504 carries no absence check, so the set-if-absent invariant does not hold for
`titre_poste` across the Jobup extractor. -/
theorem c1_counterexample :
    ((extract_opengraph c1doc.metas {}).titre_poste = ("Emplois chez Helvetia - postulez")) ∧
    ((extract_jobup_detail_from_page c1doc.jobupContainerText
        (extract_opengraph c1doc.metas {})).titre_poste = ("Développeuse Backend")) := by
  decide

/-- Claim C1, amended: the set-if-absent invariant holds for the title in the
OpenGraph and JSON-LD extractors, and for company, location and contract type
in the JSON-LD and Jobup extractors; the one exception (besides the explicit
richer-wins rule for the description) is the Jobup structured-block extractor,
which overwrites `titre_poste` whenever it derives a non-SEO title candidate. -/
theorem c1_set_if_absent_amended :
    (∀ (metas : List MetaTag) (data : Rec), data.titre_poste ≠ "" →
      (extract_opengraph metas data).titre_poste = data.titre_poste) ∧
    (∀ (scripts : List (Option Json)) (data : Rec),
      (data.titre_poste ≠ "" →
        (extract_json_ld_jobposting scripts data).titre_poste = data.titre_poste) ∧
      (data.entreprise ≠ "" →
        (extract_json_ld_jobposting scripts data).entreprise = data.entreprise) ∧
      (data.localisation ≠ "" →
        (extract_json_ld_jobposting scripts data).localisation = data.localisation) ∧
      (data.type_contrat ≠ "" →
        (extract_json_ld_jobposting scripts data).type_contrat = data.type_contrat)) ∧
    (∀ (ct : Option String) (data : Rec),
      (data.entreprise ≠ "" →
        (extract_jobup_detail_from_page ct data).entreprise = data.entreprise) ∧
      (data.localisation ≠ "" →
        (extract_jobup_detail_from_page ct data).localisation = data.localisation) ∧
      (data.type_contrat ≠ "" →
        (extract_jobup_detail_from_page ct data).type_contrat = data.type_contrat)) := by
  refine ⟨?_, ?_, ?_⟩
  · intro metas data h
    exact foldl_field_preserve ogStep (fun r => r.titre_poste) ogStep_titre metas data h
  · intro scripts data
    refine ⟨?_, ?_, ?_, ?_⟩ <;> intro h
    · exact foldl_field_preserve ldScriptStep (fun r => r.titre_poste)
        (fun d a hh => (ldScriptStep_preserve d a).1 hh) scripts data h
    · exact foldl_field_preserve ldScriptStep (fun r => r.entreprise)
        (fun d a hh => (ldScriptStep_preserve d a).2.1 hh) scripts data h
    · exact foldl_field_preserve ldScriptStep (fun r => r.localisation)
        (fun d a hh => (ldScriptStep_preserve d a).2.2.1 hh) scripts data h
    · exact foldl_field_preserve ldScriptStep (fun r => r.type_contrat)
        (fun d a hh => (ldScriptStep_preserve d a).2.2.2 hh) scripts data h
  · intro ct data
    exact jobup_extractor_preserve ct data

/-- Witness for C1: the amended invariant applied at concrete inputs — a
record whose title and company are already set keeps them across the JSON-LD
and Jobup extractors. -/
theorem c1_witness :
    (extract_json_ld_jobposting c4doc.ldScripts { titre_poste := ("Déjà présent") }).titre_poste
      = ("Déjà présent") ∧
    (extract_jobup_detail_from_page c1doc.jobupContainerText
        { entreprise := ("Ancienne SA") }).entreprise = ("Ancienne SA") :=
  ⟨(c1_set_if_absent_amended.2.1 c4doc.ldScripts { titre_poste := ("Déjà présent") }).1 (by decide),
   (c1_set_if_absent_amended.2.2 c1doc.jobupContainerText { entreprise := ("Ancienne SA") }).1 (by decide)⟩

/-! ### Claim C3 -/

/-- A JSON-LD JobPosting node with a title. -/
def nodeT (tj : String) : Json := jobj [("@type", Json.str ("JobPosting")), ("title", Json.str tj)]

def c3url : String := "https://site.example/poste"

/-- A document with both an OpenGraph title `c` and a JSON-LD JobPosting
title `tj`. -/
def c3docOf (c tj : String) : Doc :=
  { metas := [{ property := some ("og:title"), content := some c }],
    ldScripts := [some (nodeT tj)] }

/-- A Jobup document carrying both an OpenGraph title and a JSON-LD
JobPosting title, plus the structured detail block. -/
def c3jobupDoc : Doc :=
  { metas := [{ property := some ("og:title"), content := some ("Emplois: 250 offres - Jobup") }],
    ldScripts := [some (nodeT ("Titre JSON-LD"))],
    jobupContainerText := some c1text }

def c3jobupUrl : String := "https://www.jobup.ch/fr/emplois/detail/123/"

/-- Claim C3, counterexample: on a jobup.ch document containing a non-empty
`og:title`, a JSON-LD JobPosting with a non-empty title, and a structured
detail block, the parsed record's title is the detail-block candidate
"Développeuse Backend" — not the OpenGraph value — so "titre_poste equals the
OpenGraph value" fails on this document. -/
theorem c3_counterexample :
    (((parse_offer_html okFs c3jobupDoc c3jobupUrl ("") ts0).result.toOption).map Rec.titre_poste
        ≠ some (pyStrip ("Emplois: 250 offres - Jobup"))) ∧
    (((parse_offer_html okFs c3jobupDoc c3jobupUrl ("") ts0).result.toOption).map Rec.titre_poste
        = some ("Développeuse Backend")) := by
  decide

/-- Evaluation of the parse pipeline on a document whose only signals are an
OpenGraph title `c` (with non-blank content) and a JSON-LD JobPosting title. -/
theorem c3_eval (c t : String) (hc : c ≠ "") (hcs : pyStrip c ≠ "") :
    parse_offer_html okFs (c3docOf c t) c3url ("") ts0 =
      { result := .ok
          { url := c3url, source_url := c3url, source_site := ("site.example"),
            source := ("site.example"), titre_poste := pyStrip c, has_jobposting := true,
            dump_path := ("imports_debug/import_site.example_20260101-120000.txt") },
        dumps := [("imports_debug/import_site.example_20260101-120000.txt")] } := by
  have e1 : lowerS (urlparse c3url).netloc = ("site.example") := by decide
  have e2 : humanize_domain ("site.example") = ("site.example") := by decide
  have e3 : domain_is_jobup ("site.example") = false := by decide
  have e4 : pyStrip ("") = ("") := rfl
  have e5 : write_import_dump_txt okFs c3url ts0 =
      Except.ok ("imports_debug/import_site.example_20260101-120000.txt") := rfl
  simp [parse_offer_html, extractionPhase, c3docOf, pyOrS, e1, e2, e3, e4, e5,
    extract_opengraph, ogStep, pyOrOpt, hc,
    extract_json_ld_jobposting, ldScriptStep, jpStep, jpNodes, nodeT, jobj, JsonObj.ofList,
    isJobPosting, jGet, jLookup, jTruthy, Json.isObj, jpTitre, jpEntreprise, jpLocalisation,
    jpContrat, jpDesc, as_text, hcs, looks_like_listing_or_shell, pageTitleStr, clean_title]

/-- Claim C3, amended: on a document with both a non-blank OpenGraph `og:title`
and a JSON-LD JobPosting title, the parsed title is the (stripped) OpenGraph
value and the JSON-LD title is ignored (the whole outcome is independent of
it) — unless the document is a jobup.ch page whose structured-block extractor
derives its own title candidate, which then overwrites the OpenGraph value. -/
theorem c3_title_priority_amended (c tj : String) (hcs : pyStrip c ≠ "") :
    (((parse_offer_html okFs (c3docOf c tj) c3url ("") ts0).result.toOption).map Rec.titre_poste
        = some (pyStrip c)) ∧
    (∀ tj2 : String, parse_offer_html okFs (c3docOf c tj) c3url ("") ts0
        = parse_offer_html okFs (c3docOf c tj2) c3url ("") ts0) := by
  have hc : c ≠ "" := by
    intro h
    apply hcs
    rw [h]
    rfl
  constructor
  · rw [c3_eval c tj hc hcs]
    rfl
  · intro tj2
    rw [c3_eval c tj hc hcs, c3_eval c tj2 hc hcs]

/-- Witness for C3: the amended title-priority statement at a concrete
document. -/
theorem c3_witness :
    (((parse_offer_html okFs (c3docOf ("Un Titre OG") ("Titre JSON")) c3url ("") ts0).result.toOption).map
        Rec.titre_poste = some (pyStrip ("Un Titre OG"))) ∧
    (∀ tj2 : String, parse_offer_html okFs (c3docOf ("Un Titre OG") ("Titre JSON")) c3url ("") ts0
        = parse_offer_html okFs (c3docOf ("Un Titre OG") tj2) c3url ("") ts0) :=
  c3_title_priority_amended ("Un Titre OG") ("Titre JSON") (by decide)

/-! ### Claim C7 -/

deriving instance DecidableEq for Except

/-- A document with a marketing OpenGraph description and a neutral page
title, and no JSON-LD script. -/
def c7doc : Doc :=
  { metas := [{ property := some ("og:description"),
                content := some ("Trouvez votre bonheur, postulez ici") }],
    pageTitle := some ("Accueil"), targetedText := ("quelque chose") }

def c7url : String := "https://example.net/page"

/-- Claim C7, counterexample: the same document parses successfully without
any JSON-LD script, but adding a single malformed JSON-LD script makes the
pipeline raise `UrlImportError` — the classifier counts the mere presence of
an `application/ld+json` tag (source line 559), so a malformed script is not
always behaviour-neutral. -/
theorem c7_counterexample :
    ((parse_offer_html okFs c7doc c7url ("") ts0).result.toOption).isSome = true ∧
    (parse_offer_html okFs { c7doc with ldScripts := [none] } c7url ("") ts0).result =
      .error (.urlImport (listingShellMsg (dumpPathOf c7url ts0))) := by
  decide

/-- Claim C7, amended: a malformed JSON-LD script contributes nothing to the
JSON-LD extractor (which never fails), and the whole parse outcome is
unchanged by removing it provided at least one other `application/ld+json`
script remains on the page; when the malformed script is the only one, its
presence is still visible to the listing/shell classifier and can turn a
marketing page into an `UnsupportedPageError`. -/
theorem c7_malformed_tolerance_amended :
    (∀ (pre post : List (Option Json)) (data : Rec),
      extract_json_ld_jobposting (pre ++ none :: post) data
        = extract_json_ld_jobposting (pre ++ post) data) ∧
    (∀ (doc : Doc) (pre post : List (Option Json)) (fs : Fs) (url fu ts : String),
      pre ++ post ≠ [] →
      parse_offer_html fs { doc with ldScripts := pre ++ none :: post } url fu ts =
        parse_offer_html fs { doc with ldScripts := pre ++ post } url fu ts) := by
  have hext : ∀ (pre post : List (Option Json)) (data : Rec),
      extract_json_ld_jobposting (pre ++ none :: post) data
        = extract_json_ld_jobposting (pre ++ post) data := by
    intro pre post data
    simp [extract_json_ld_jobposting, List.foldl_append, ldScriptStep]
  refine ⟨hext, ?_⟩
  intro doc pre post fs url fu ts h
  have e1 : (pre ++ none :: post).isEmpty = false := by
    cases pre <;> rfl
  have e2 : (pre ++ post).isEmpty = false := by
    cases hpp : pre ++ post with
    | nil => exact absurd hpp h
    | cons a t => rfl
  simp only [parse_offer_html, extractionPhase, e1, e2, hext]

/-- Witness for C7: the amended no-contribution statement at concrete inputs —
a malformed script next to a well-formed JobPosting script changes neither the
extractor result nor the parse outcome. -/
theorem c7_witness :
    (extract_json_ld_jobposting ([] ++ none :: [some (nodeT ("Poste"))]) {}
      = extract_json_ld_jobposting ([] ++ [some (nodeT ("Poste"))]) {}) ∧
    (parse_offer_html okFs { c7doc with ldScripts := [] ++ none :: [some (nodeT ("Poste"))] } c7url ("") ts0
      = parse_offer_html okFs { c7doc with ldScripts := [] ++ [some (nodeT ("Poste"))] } c7url ("") ts0) :=
  ⟨c7_malformed_tolerance_amended.1 [] [some (nodeT ("Poste"))] {},
   c7_malformed_tolerance_amended.2 c7doc [] [some (nodeT ("Poste"))] okFs c7url ("") ts0
     (List.cons_ne_nil _ _)⟩

/-! ### Claim C8 -/

/-- A filesystem on which creating the dump directory fails. -/
def c8failFs : Fs := { mkdirFails := true }

def c8mkdirMsg : String := "OSError: cannot create imports_debug"

/-- Claim C8, counterexample: on a filesystem where `dumps_dir.mkdir` fails,
`_write_import_dump_txt` does not return a path — it raises — and the raised
`OSError` replaces the pipeline's primary outcome: the very document that
parses successfully on a cooperating filesystem now errors. -/
theorem c8_counterexample :
    ((parse_offer_html okFs c4doc c4url ("") ts0).result.toOption).isSome = true ∧
    (write_import_dump_txt c8failFs c4url ts0 = .error c8mkdirMsg) ∧
    ((parse_offer_html c8failFs c4doc c4url ("") ts0).result = .error (.osError c8mkdirMsg)) := by
  decide

/-- Claim C8, amended: `write_dump` returns a (non-empty) path whenever the
filesystem operations succeed, but a failure of the directory creation or of
the file open propagates to the caller as an exception — the source contains
no handler — and a mkdir failure replaces the pipeline's primary outcome with
the `OSError`, leaving no dump written. -/
theorem c8_write_dump_amended :
    (∀ url ts : String,
      write_import_dump_txt okFs url ts = .ok (dumpPathOf url ts) ∧ 0 < (dumpPathOf url ts).length) ∧
    (∀ (fs : Fs) (url ts : String), fs.mkdirFails = true ∨ fs.openFails = true →
      ∃ m, write_import_dump_txt fs url ts = .error m) ∧
    (∀ (fs : Fs) (doc : Doc) (url fu ts : String), fs.mkdirFails = true →
      (parse_offer_html fs doc url fu ts).result = .error (.osError c8mkdirMsg) ∧
      (parse_offer_html fs doc url fu ts).dumps = []) := by
  refine ⟨?_, ?_, ?_⟩
  · intro url ts
    refine ⟨rfl, ?_⟩
    have h21 : ("imports_debug/import_" : String).length = 21 := rfl
    rw [dumpPathOf, strLength_append, h21]
    omega
  · intro fs url ts h
    rcases h with h | h
    · exact ⟨("OSError: cannot create imports_debug"), by simp [write_import_dump_txt, h]⟩
    · by_cases hm : fs.mkdirFails = true
      · exact ⟨("OSError: cannot create imports_debug"), by simp [write_import_dump_txt, hm]⟩
      · exact ⟨("OSError: cannot open dump file"), by simp [write_import_dump_txt, hm, h]⟩
  · intro fs doc url fu ts h
    have hw : write_import_dump_txt fs url ts = .error c8mkdirMsg := by
      simp [write_import_dump_txt, h, c8mkdirMsg]
    refine ⟨?_, ?_⟩ <;> simp only [parse_offer_html, hw] <;> split_ifs <;> rfl

/-- Witness for C8: the amended behaviour at concrete inputs. -/
theorem c8_witness :
    (write_import_dump_txt okFs c4url ts0 = .ok (dumpPathOf c4url ts0) ∧
      0 < (dumpPathOf c4url ts0).length) ∧
    (∃ m, write_import_dump_txt c8failFs c4url ts0 = .error m) ∧
    ((parse_offer_html c8failFs c4doc c4url ("") ts0).result = .error (.osError c8mkdirMsg) ∧
      (parse_offer_html c8failFs c4doc c4url ("") ts0).dumps = []) :=
  ⟨c8_write_dump_amended.1 c4url ts0,
   c8_write_dump_amended.2.1 c8failFs c4url ts0 (Or.inl rfl),
   c8_write_dump_amended.2.2 c8failFs c4doc c4url ("") ts0 rfl⟩

/-! ### Claim C9 -/

/-- Claim C9: parsing the same HTML (same parsed document, url and final url)
twice with different wall-clock timestamps yields records that agree on every
field except `_dump_path`, whose value embeds the timestamp. -/
theorem c9_determinism (doc : Doc) (url fu ts1 ts2 : String) (r1 r2 : Rec)
    (h1 : (parse_offer_html okFs doc url fu ts1).result = .ok r1)
    (h2 : (parse_offer_html okFs doc url fu ts2).result = .ok r2) :
    { r1 with dump_path := ("") } = { r2 with dump_path := ("") } := by
  have hw1 : write_import_dump_txt okFs url ts1 = .ok (dumpPathOf url ts1) := rfl
  have hw2 : write_import_dump_txt okFs url ts2 = .ok (dumpPathOf url ts2) := rfl
  simp only [parse_offer_html, hw1, hw2] at h1 h2
  split_ifs at h1 h2 <;>
    first
      | (simp at h1; done)
      | (simp only [Except.ok.injEq] at h1 h2
         rw [← h1, ← h2])

/-- The Scenario A record as returned with timestamp `p` in the dump path. -/
def c9recOf (p : String) : Rec :=
  { has_jobposting := true, url := c4url, source_url := c4url,
    source_site := ("example.com"), source := ("example.com"),
    titre_poste := ("Ingénieur Logiciel"), entreprise := ("Acme SA"), dump_path := p }

/-- Witness for C9: two parses of the Scenario A document at different
timestamps return records equal up to the dump path. -/
theorem c9_witness :
    ({ c9recOf ("imports_debug/import_example.com_20260101-120000.txt") with dump_path := ("") } : Rec)
      = { c9recOf ("imports_debug/import_example.com_20260202-130000.txt") with dump_path := ("") } :=
  c9_determinism c4doc c4url ("") ts0 ("20260202-130000")
    (c9recOf ("imports_debug/import_example.com_20260101-120000.txt"))
    (c9recOf ("imports_debug/import_example.com_20260202-130000.txt"))
    (by decide) (by decide)

/-! ### Claim C2 -/

/-- The candidate description the JSON-LD extractor computes from a
string-valued `description`: `_strip_html(_as_text(desc))`. -/
def descCandidate (d : String) : String := strip_html (pyStrip d)

/-- A JSON-LD JobPosting node with a description. -/
def nodeD (d : String) : Json := jobj [("@type", Json.str ("JobPosting")), ("description", Json.str d)]

/-- A document whose only signals are two JSON-LD JobPosting nodes with
descriptions `d1` and `d2`, in that script order. -/
def c2docOf (d1 d2 : String) : Doc := { ldScripts := [some (nodeD d1), some (nodeD d2)] }

/-- Claim C2: for two JobPosting descriptions whose HTML-stripped candidates
have lengths 50 and 500, the parsed record's final `texte_annonce` is the
500-character candidate in either script order; and in general a (non-empty)
candidate replaces the current description exactly when the current one is
empty or the candidate is strictly longer. -/
theorem c2_richer_wins (d1 d2 : String)
    (h1 : (descCandidate d1).length = 50) (h2 : (descCandidate d2).length = 500) :
    (((parse_offer_html okFs (c2docOf d1 d2) c3url ("") ts0).result.toOption).map Rec.texte_annonce
        = some (descCandidate d2)) ∧
    (((parse_offer_html okFs (c2docOf d2 d1) c3url ("") ts0).result.toOption).map Rec.texte_annonce
        = some (descCandidate d2)) ∧
    (∀ (d : Rec) (s : String), s ≠ ("") → descCandidate s ≠ ("") →
      (jpDesc (nodeD s) d).texte_annonce =
        (if d.texte_annonce = ("") ∨ d.texte_annonce.length < (descCandidate s).length
         then descCandidate s else d.texte_annonce)) := by
  simp only [descCandidate] at h1 h2 ⊢
  have hd1 : d1 ≠ ("") := by
    intro h
    rw [h] at h1
    simp [pyStrip, trimL, strip_html, splitTagsF, joinSep] at h1
  have hd2 : d2 ≠ ("") := by
    intro h
    rw [h] at h2
    simp [pyStrip, trimL, strip_html, splitTagsF, joinSep] at h2
  have hc1 : strip_html (pyStrip d1) ≠ ("") := by
    intro h
    rw [h] at h1
    simp [String.length] at h1
  have hc2 : strip_html (pyStrip d2) ≠ ("") := by
    intro h
    rw [h] at h2
    simp [String.length] at h2
  have hlt : (strip_html (pyStrip d1)).length < (strip_html (pyStrip d2)).length := by
    rw [h1, h2]
    omega
  have hnlt : ¬ (strip_html (pyStrip d2)).length < (strip_html (pyStrip d1)).length := by
    rw [h1, h2]
    omega
  have e1 : lowerS (urlparse c3url).netloc = ("site.example") := by decide
  have e2 : humanize_domain ("site.example") = ("site.example") := by decide
  have e3 : domain_is_jobup ("site.example") = false := by decide
  have e4 : pyStrip ("") = ("") := rfl
  have e5 : write_import_dump_txt okFs c3url ts0 =
      Except.ok ("imports_debug/import_site.example_20260101-120000.txt") := rfl
  refine ⟨?_, ?_, ?_⟩
  · simp [parse_offer_html, extractionPhase, c2docOf, pyOrS, e1, e2, e3, e4, e5,
      extract_opengraph, extract_json_ld_jobposting, ldScriptStep, jpStep, jpNodes, nodeD, jobj,
      JsonObj.ofList, isJobPosting, jGet, jLookup, jTruthy, Json.isObj, jpTitre, jpEntreprise,
      jpLocalisation, jpContrat, jpDesc, as_text, descReplace, hd1, hd2, hc1, hc2, hlt,
      looks_like_listing_or_shell, pageTitleStr, clean_title]
    exact ⟨_, rfl, rfl⟩
  · simp [parse_offer_html, extractionPhase, c2docOf, pyOrS, e1, e2, e3, e4, e5,
      extract_opengraph, extract_json_ld_jobposting, ldScriptStep, jpStep, jpNodes, nodeD, jobj,
      JsonObj.ofList, isJobPosting, jGet, jLookup, jTruthy, Json.isObj, jpTitre, jpEntreprise,
      jpLocalisation, jpContrat, jpDesc, as_text, descReplace, hd1, hd2, hc1, hc2, hnlt,
      looks_like_listing_or_shell, pageTitleStr, clean_title]
    exact ⟨_, rfl, rfl⟩
  · intro d s hs hcs
    simp [jpDesc, nodeD, jobj, JsonObj.ofList, jGet, jLookup, jTruthy, as_text,
      descReplace, hs, hcs]

/-- Witness for C2: richer-wins at concrete descriptions of stripped lengths
50 and 500. -/
theorem c2_witness :
    (((parse_offer_html okFs
          (c2docOf (String.mk (List.replicate 50 ('a'))) (String.mk (List.replicate 500 ('b'))))
          c3url ("") ts0).result.toOption).map Rec.texte_annonce
        = some (descCandidate (String.mk (List.replicate 500 ('b'))))) ∧
    (((parse_offer_html okFs
          (c2docOf (String.mk (List.replicate 500 ('b'))) (String.mk (List.replicate 50 ('a'))))
          c3url ("") ts0).result.toOption).map Rec.texte_annonce
        = some (descCandidate (String.mk (List.replicate 500 ('b'))))) :=
  ⟨(c2_richer_wins (String.mk (List.replicate 50 ('a'))) (String.mk (List.replicate 500 ('b')))
      (by decide) (by decide)).1,
   (c2_richer_wins (String.mk (List.replicate 50 ('a'))) (String.mk (List.replicate 500 ('b')))
      (by decide) (by decide)).2.1⟩

/-! ### Claim C5 -/

/-- Claim C5: whenever the extraction phase produced neither `_has_jobposting`
nor `_has_detail` and the classifier flags the page, the parse aborts with a
`UrlImportError`; the diagnostics dump is written before the error is raised
(it is the single dump of the run, and the returned error carries it), the
dump path is non-empty, and the error message contains that path. -/
theorem c5_trust_gate (doc : Doc) (url fu ts : String)
    (hjp : (extractionPhase doc url fu).has_jobposting = false)
    (hd : (extractionPhase doc url fu).has_detail = false)
    (hcl : looks_like_listing_or_shell doc.pageTitle (!doc.ldScripts.isEmpty)
      (extractionPhase doc url fu) = true) :
    parse_offer_html okFs doc url fu ts =
      { result := .error (.urlImport (listingShellMsg (dumpPathOf url ts))),
        dumps := [dumpPathOf url ts] } ∧
    0 < (dumpPathOf url ts).length ∧
    strContains (listingShellMsg (dumpPathOf url ts)) (dumpPathOf url ts) = true := by
  have hw : write_import_dump_txt okFs url ts = .ok (dumpPathOf url ts) := rfl
  refine ⟨?_, ?_, ?_⟩
  · simp only [parse_offer_html, hw]
    rw [if_pos ⟨by simp [hjp], by simp [hd], hcl⟩]
  · have h21 : ("imports_debug/import_" : String).length = 21 := rfl
    rw [dumpPathOf, strLength_append, h21]
    omega
  · exact strContains_append_self _ _

/-- The Scenario B document: only a marketing `og:description` and a
search-results `<title>`, no JSON-LD. -/
def c5doc : Doc :=
  { metas := [{ property := some ("og:description"),
                content := some ("Trouvez votre emploi idéal, postulez maintenant sur JobSite") }],
    pageTitle := some ("Emplois - résultats de recherche") }

def c5url : String := "https://www.jobsite.example/search"

/-- Witness for C5: Scenario B — the trust gate fires on the concrete
listing/shell document and the raised error carries the dump path. -/
theorem c5_witness :
    parse_offer_html okFs c5doc c5url ("") ts0 =
      { result := .error (.urlImport (listingShellMsg (dumpPathOf c5url ts0))),
        dumps := [dumpPathOf c5url ts0] } ∧
    0 < (dumpPathOf c5url ts0).length ∧
    strContains (listingShellMsg (dumpPathOf c5url ts0)) (dumpPathOf c5url ts0) = true :=
  c5_trust_gate c5doc c5url ("") ts0 (by decide) (by decide) (by decide)

/-! ### Claim C6 -/

/-- A 403/429 response on the first attempt makes `_fetch_html` raise the
soft-block error immediately. -/
theorem fetchBlocked (n : Nat → NetResp) (st : Nat) (t u : String)
    (hst : st = 403 ∨ st = 429) (h0 : n 0 = .ok st t u) :
    fetch_html n = .error (.urlImport (blockedMsg st)) := by
  rcases hst with h | h <;> subst h <;> simp [fetch_html, fetchGo, h0]

/-- Claim C6: the static fetch consults the network on at most the three
attempts `range(3)` (its result depends only on attempts 0, 1, 2, so there is
no fourth attempt); an HTTP 403 or 429 on the first attempt raises
immediately, with a message mentioning the status code and suggesting browser
mode; three transient failures exhaust the budget and raise; and a 403 on a
world without the Playwright fallback makes the import fail with the
soft-block error and an empty list of written dumps — no diagnostics file is
produced. -/
theorem c6_fetch_policy :
    (∀ n1 n2 : Nat → NetResp, (∀ i, i < 3 → n1 i = n2 i) → fetch_html n1 = fetch_html n2) ∧
    (∀ (n : Nat → NetResp) (st : Nat) (t u : String), st = 403 ∨ st = 429 → n 0 = .ok st t u →
      fetch_html n = .error (.urlImport (blockedMsg st)) ∧
      strContains (blockedMsg st) (toString st) = true ∧
      strContains (blockedMsg st) ("navigateur") = true) ∧
    (∀ (n : Nat → NetResp) (m0 m1 m2 : String),
      n 0 = .exc m0 → n 1 = .exc m1 → n 2 = .exc m2 →
      fetch_html n = .error (.urlImport (fetchFailMsg (some m2)))) ∧
    (∀ (w : World) (url : String) (st : Nat) (t u : String),
      url ≠ "" → (urlparse url).scheme ≠ "" → (urlparse url).netloc ≠ "" →
      st = 403 ∨ st = 429 → w.net 0 = .ok st t u →
      urlImportOffer w url =
        { result := .error (.urlImport (blockedMsg st)), dumps := [] }) := by
  refine ⟨?_, ?_, ?_, ?_⟩
  · intro n1 n2 h
    have h0 := h 0 (by omega)
    have h1 := h 1 (by omega)
    have h2 := h 2 (by omega)
    simp only [fetch_html, fetchGo, h0, h1, h2]
  · intro n st t u hst h0
    refine ⟨fetchBlocked n st t u hst h0, ?_, ?_⟩ <;>
      rcases hst with h | h <;> subst h <;> decide
  · intro n m0 m1 m2 h0 h1 h2
    simp [fetch_html, fetchGo, h0, h1, h2]
  · intro w url st t u hurl hs hn hst h0
    have hf := fetchBlocked w.net st t u hst h0
    simp only [urlImportOffer]
    rw [if_neg hurl]
    rw [if_neg (by push_neg; exact ⟨hs, hn⟩)]
    simp only [hf]

/-- A world whose static fetch always answers HTTP 403 and which has no
Playwright fallback. -/
def c6world : World :=
  { net := fun _ => .ok 403 ("blocked") (""), hasPlaywright := false,
    pw := .error ("unavailable"), soupOf := fun _ => {}, fs := okFs, ts := ts0 }

/-- Witness for C6: the 403 policy at a concrete oracle and world
(Scenario C), plus the attempt bound applied to that oracle. -/
theorem c6_witness :
    (fetch_html c6world.net = fetch_html c6world.net) ∧
    (fetch_html c6world.net = .error (.urlImport (blockedMsg 403)) ∧
      strContains (blockedMsg 403) (toString 403) = true ∧
      strContains (blockedMsg 403) ("navigateur") = true) ∧
    (urlImportOffer c6world ("https://example.org/a") =
      { result := .error (.urlImport (blockedMsg 403)), dumps := [] }) :=
  ⟨c6_fetch_policy.1 c6world.net c6world.net (fun _ _ => rfl),
   c6_fetch_policy.2.1 c6world.net 403 ("blocked") ("") (Or.inl rfl) rfl,
   c6_fetch_policy.2.2.2 c6world ("https://example.org/a") 403 ("blocked") ("")
     (by decide) (by decide) (by decide) (Or.inl rfl) rfl⟩

/-! ### Claim C10 -/

/-- Claim C10: when the static fetch and parse succeed but the record carries
neither `_has_jobposting` nor `_has_detail` for a Jobup detail URL, and the
subsequent Playwright re-fetch — or the re-parse of its result — fails, then
the import returns the record obtained from the static fetch instead of
propagating the headless failure (source lines 83-88). -/
theorem c10_graceful_degradation (w : World) (url html fu : String) (data : Rec)
    (hurl : url ≠ "") (hs : (urlparse url).scheme ≠ "") (hn : (urlparse url).netloc ≠ "")
    (hf : fetch_html w.net = .ok (html, fu))
    (hp : (parse_offer_html w.fs (w.soupOf html) (urlunparse (urlparse url)) fu w.ts).result = .ok data)
    (hpw : w.hasPlaywright = true)
    (hju : domain_is_jobup data.source_site = true)
    (hdet : is_probable_detail_url (pyOrS data.source_url (urlunparse (urlparse url))) = true)
    (hnd : data.has_detail = false) (hnj : data.has_jobposting = false)
    (hfail : match w.pw with
      | .error _ => True
      | .ok (h2, f2) =>
        ∃ e, (parse_offer_html w.fs (w.soupOf h2) (urlunparse (urlparse url)) f2 w.ts).result
          = .error e) :
    (urlImportOffer w url).result = .ok data := by
  simp only [urlImportOffer]
  rw [if_neg hurl]
  rw [if_neg (by push_neg; exact ⟨hs, hn⟩)]
  simp only [hf, hp]
  rw [if_pos ⟨by simp [hpw], by simp [hju], by simp [hdet], by simp [hnd], by simp [hnj]⟩]
  rcases hw : w.pw with m | ⟨h2, f2⟩
  · rfl
  · rw [hw] at hfail
    rcases hfail with ⟨e, he⟩
    simp only [he]

/-- The Jobup document served by the static fetch in the C10 witness: a page
with a title and targeted text but no JobPosting and no detail block. -/
def c10doc : Doc := { pageTitle := some ("Une page"), targetedText := ("contenu") }

def c10url : String := "https://www.jobup.ch/fr/emplois/detail/abc/"

/-- A world whose static fetch succeeds on a Jobup detail URL and whose
Playwright fetch raises. -/
def c10world : World :=
  { net := fun _ => .ok 200 ("page") (""), hasPlaywright := true,
    pw := .error ("playwright boom"), soupOf := fun _ => c10doc, fs := okFs, ts := ts0 }

/-- The record the static parse produces in the C10 witness. -/
def c10rec : Rec :=
  { url := c10url, source_url := c10url, source_site := ("www.jobup.ch"),
    source := ("jobup.ch"), titre_poste := ("Une page"), texte_annonce := ("contenu"),
    dump_path := ("imports_debug/import_www.jobup.ch_20260101-120000.txt") }

/-- Witness for C10: the graceful-degradation theorem at the concrete world —
the import returns the static record although Playwright raised. -/
theorem c10_witness : (urlImportOffer c10world c10url).result = .ok c10rec :=
  c10_graceful_degradation c10world c10url ("page") ("") c10rec
    (by decide) (by decide) (by decide) (by decide) (by decide)
    rfl (by decide) (by decide) (by decide) (by decide) trivial
